import Mathlib

/-!
Verification of the resilience layer of an F1 results backend (`src/main.py`):
a shallow embedding of its normalizer, retrying session loader, schedule
accessor (an LRU-memoized fetch backed by a persistent cache entry), and the
tiered fresh/stale result cache used by the `session_results` and
`circuit_map` handlers, together with theorems settling the specification's
claims about them.

Conventions of the embedding:
  * Python field values arriving from provider rows are modelled by `Raw`
    (`None`, strings, ints, floats as rationals, and the floating NaN).
  * Fallible Python code is modelled in `Except PyErr`.
  * The persistent string-keyed cache (`diskcache`) is modelled as a function
    from structured keys to optional `(payload, ttl)` entries; the key
    constructors mirror the source's namespaced key strings, which are
    collision-free across domains by construction.
  * Wall-clock effects (sleeping) are modelled by recording the list of sleep
    durations an execution performs.
-/

namespace F1

/-- A raw, loosely-typed Python value as seen in provider rows: `None`, a
string, an int, a non-NaN float (modelled as a rational), or the floating NaN
(which in Python is non-`None` and truthy). -/
inductive Raw where
  | none
  | str (s : String)
  | int (n : Int)
  | float (q : Rat)
  | nan
deriving DecidableEq, Repr

/-- Python errors relevant to this layer, each carrying the message that
`str(exc)` would produce. -/
inductive PyErr where
  | upstreamUnavailable (msg : String)
  | notFound (msg : String)
  | noDataForSession (msg : String)
  | valueError (msg : String)
deriving DecidableEq, Repr

/-- The message `str(exc)` yields for an error. -/
def PyErr.msg : PyErr → String
  | PyErr.upstreamUnavailable m => m
  | PyErr.notFound m => m
  | PyErr.noDataForSession m => m
  | PyErr.valueError m => m

/-- Python truthiness of a raw value: `None` is falsy, `""` is falsy, `0` and
`0.0` are falsy, NaN is truthy. -/
def Raw.truthy : Raw → Bool
  | Raw.none => false
  | Raw.str s => !(s == "")
  | Raw.int n => !(n == 0)
  | Raw.float q => decide (q ≠ 0)
  | Raw.nan => true

/-- Model of `pandas.isna` on scalar values: true exactly on `None` and NaN. -/
def pdIsna : Raw → Bool
  | Raw.none => true
  | Raw.nan => true
  | _ => false

/-- Model of Python `str(...)` on raw values. The float case uses the
rational's canonical rendering; no claim in this development depends on the
textual form of a float. -/
def pyStr : Raw → String
  | Raw.none => "None"
  | Raw.str s => s
  | Raw.int n => toString n
  | Raw.float q => toString q
  | Raw.nan => "nan"

/-- Python `str.lower()` (ASCII case folding suffices for the session names
this layer inspects). -/
def pyLower (s : String) : String := String.mk (s.toList.map Char.toLower)

/-- Python `str.strip()` on a character list: drop whitespace from both
ends. -/
def pyTrimChars (cs : List Char) : List Char :=
  ((cs.dropWhile Char.isWhitespace).reverse.dropWhile Char.isWhitespace).reverse

/-- Python `str.strip()`. -/
def pyTrim (s : String) : String := String.mk (pyTrimChars s.toList)

/-- Python `==` between raw values: numeric cross-type equality holds
(`1 == 1.0`), NaN is equal to nothing (itself included), and values of
unrelated types are unequal. -/
def Raw.pyEq : Raw → Raw → Bool
  | Raw.none, Raw.none => true
  | Raw.str a, Raw.str b => a == b
  | Raw.int a, Raw.int b => a == b
  | Raw.int a, Raw.float b => (a : Rat) == b
  | Raw.float a, Raw.int b => a == ((b : Rat))
  | Raw.float a, Raw.float b => a == b
  | _, _ => false

/-- Value of a digit list in base 10, `none` if a non-digit appears. -/
def digitsVal (cs : List Char) : Option Nat :=
  cs.foldl
    (fun acc c =>
      match acc with
      | some n => if c.isDigit then some (n * 10 + (c.toNat - 48)) else Option.none
      | Option.none => Option.none)
    (some 0)

/-- Integer literal: optional sign followed by at least one digit. -/
def pyIntOfChars (cs : List Char) : Option Int :=
  match cs with
  | '-' :: rest =>
    if rest.isEmpty then Option.none else (digitsVal rest).map (fun n => -(n : Int))
  | '+' :: rest =>
    if rest.isEmpty then Option.none else (digitsVal rest).map (fun n => ((n : Int)))
  | rest =>
    if rest.isEmpty then Option.none else (digitsVal rest).map (fun n => ((n : Int)))

/-- Python `int(...)` on a raw value: parses trimmed integer literals from
strings, truncates floats toward zero, and raises on `None` and on NaN
(`int(float('nan'))` raises `ValueError`). -/
def pyInt : Raw → Except PyErr Int
  | Raw.none => Except.error (PyErr.valueError "int() argument must not be None")
  | Raw.str s =>
    match pyIntOfChars (pyTrimChars s.toList) with
    | some n => Except.ok n
    | Option.none => Except.error (PyErr.valueError ("invalid literal for int() with base 10: " ++ s))
  | Raw.int n => Except.ok n
  | Raw.float q => Except.ok (q.num.tdiv (q.den : Int))
  | Raw.nan => Except.error (PyErr.valueError "cannot convert float NaN to integer")

/-- Unsigned float literal body: digits, optionally followed by `.` and
digits, with at least one digit present overall (exponent forms are not used
by this layer). -/
def floatLitBody? (cs : List Char) : Option Rat :=
  let ip := cs.takeWhile Char.isDigit
  match cs.dropWhile Char.isDigit with
  | [] => if ip.isEmpty then Option.none else (digitsVal ip).map (fun n => (n : Rat))
  | '.' :: frac =>
    if frac.all Char.isDigit && !(ip.isEmpty && frac.isEmpty) then
      match digitsVal ip, digitsVal frac with
      | some a, some b => some ((a : Rat) + (b : Rat) / ((10 : Rat) ^ frac.length))
      | _, _ => Option.none
    else Option.none
  | _ => Option.none

/-- Signed float literal. -/
def floatLit? (cs : List Char) : Option Rat :=
  match cs with
  | '-' :: rest => (floatLitBody? rest).map (fun q => -q)
  | '+' :: rest => floatLitBody? rest
  | rest => floatLitBody? rest

/-- Python `float(str)`: trims, accepts `nan` spellings, otherwise parses a
decimal literal; raises `ValueError` on anything else. -/
def pyFloatOfString (s : String) : Except PyErr Raw :=
  let t := pyTrim s
  if pyLower t == "nan" || pyLower t == "+nan" || pyLower t == "-nan" then Except.ok Raw.nan
  else
    match floatLit? t.toList with
    | some q => Except.ok (Raw.float q)
    | Option.none => Except.error (PyErr.valueError ("could not convert string to float: " ++ s))

/-- Python `float(...)` on a raw value: raises on `None`, passes NaN through
(`float(nan)` is NaN, no exception). -/
def pyFloat : Raw → Except PyErr Raw
  | Raw.none => Except.error (PyErr.valueError "float() argument must not be None")
  | Raw.str s => pyFloatOfString s
  | Raw.int n => Except.ok (Raw.float (n : Rat))
  | Raw.float q => Except.ok (Raw.float q)
  | Raw.nan => Except.ok Raw.nan

/-- The source's `int(x) if x else None` idiom for `Position`, `Laps` and
`GridPosition`: the integer parse runs only when the raw value is truthy. -/
def pyIntIfTruthy (v : Raw) : Except PyErr (Option Int) :=
  if v.truthy then (pyInt v).map some else Except.ok Option.none

/-- The source's `float(x) if x is not None else None` idiom for `Points`:
the float parse runs whenever the raw value is not `None`. -/
def pyFloatIfNotNone (v : Raw) : Except PyErr (Option Raw) :=
  if v == Raw.none then Except.ok Option.none else (pyFloat v).map some

/-- Model of `parse_team_color` (source lines 85-89): falsy input gives
`None`; otherwise strip whitespace and all leading `#`; empty remainder gives
`None`, else re-prefix a single `#`. -/
def parse_team_color (team_color : Raw) : Option String :=
  if !team_color.truthy then Option.none
  else
    let stripped :=
      String.mk ((pyTrimChars (pyStr team_color).toList).dropWhile (fun c => c == '#'))
    if stripped == "" then Option.none else some ("#" ++ stripped)

/-- Model of `normalize_number` (source lines 92-96): `None` gives `None`;
otherwise stringify and trim, mapping the empty result to `None`. -/
def normalize_number (value : Raw) : Option String :=
  match value with
  | Raw.none => Option.none
  | v =>
    let as_text := pyTrim (pyStr v)
    if as_text == "" then Option.none else some as_text

/-- Model of `normalize_interval` (source lines 99-106): `None` and NaN-like
values give `None`; everything else is stringified verbatim. -/
def normalize_interval (value : Raw) : Option String :=
  match value with
  | Raw.none => Option.none
  | v => if pdIsna v then Option.none else some (pyStr v)

/-- Model of `first_available_interval` (source lines 109-115): the first
field, in the given priority order, whose normalized value is non-`None`. -/
def first_available_interval (row : String → Raw) : List String → Option String
  | [] => Option.none
  | field :: rest =>
    match normalize_interval (row field) with
    | some s => some s
    | Option.none => first_available_interval row rest

/-- Substring test on character lists (model of Python's `in` on strings). -/
def isSubChars (needle : List Char) : List Char → Bool
  | [] => needle.isEmpty
  | c :: rest => needle.isPrefixOf (c :: rest) || isSubChars needle rest

/-- Substring test on strings. -/
def isSubstr (needle hay : String) : Bool := isSubChars needle.toList hay.toList

/-- Session-name predicate from `_load_session_results` (source line 221):
the name contains `"race"` or equals `"sprint"`. -/
def is_race_or_sprint (session_name : String) : Bool :=
  isSubstr "race" session_name || session_name == "sprint"

/-- Session-name predicate from `_load_session_results` (source lines
222-227): practice / qualifying / shootout style timed sessions. -/
def is_non_race_timed (session_name : String) : Bool :=
  isSubstr "practice" session_name || isSubstr "qualifying" session_name ||
  isSubstr "sprint shootout" session_name || isSubstr "shootout" session_name

/-- The `row.get("Position") in [1, "1"]` test of source lines 247-248. -/
def positionIsOne (row : String → Raw) : Bool :=
  (row "Position").pyEq (Raw.int 1) || (row "Position").pyEq (Raw.str "1")

/-- The normalized per-driver output row built by `_load_session_results`
(source lines 229-252). -/
structure DriverResult where
  position : Option Int
  driver : Raw
  driver_number : Option String
  driver_code : Raw
  team : Raw
  team_color : Option String
  laps : Option Int
  status : Raw
  grid_position : Option Int
  points : Option Raw
  lap_time : Option String
  race_time : Option String
  gap_to_winner : Option String
deriving DecidableEq, Repr

/-- Mapping of one provider result row to a `DriverResult` (the dict literal
of source lines 230-250). The four fallible conversions (`Position`, `Laps`,
`GridPosition` as ints, `Points` as float) are sequenced in the order the
dict literal evaluates them; the first one to raise aborts the whole row. -/
def mapResultRow (race_or_sprint non_race_timed : Bool) (row : String → Raw) :
    Except PyErr DriverResult :=
  match pyIntIfTruthy (row "Position") with
  | Except.error e => Except.error e
  | Except.ok position =>
    match pyIntIfTruthy (row "Laps") with
    | Except.error e => Except.error e
    | Except.ok laps =>
      match pyIntIfTruthy (row "GridPosition") with
      | Except.error e => Except.error e
      | Except.ok grid_position =>
        match pyFloatIfNotNone (row "Points") with
        | Except.error e => Except.error e
        | Except.ok points =>
          Except.ok
            { position := position
              driver := row "FullName"
              driver_number := normalize_number (row "DriverNumber")
              driver_code := row "Abbreviation"
              team := row "TeamName"
              team_color := parse_team_color (row "TeamColor")
              laps := laps
              status := row "Status"
              grid_position := grid_position
              points := points
              lap_time :=
                if non_race_timed then
                  first_available_interval row ["Time", "Q1", "Q2", "Q3"]
                else Option.none
              race_time :=
                if race_or_sprint then first_available_interval row ["Time"]
                else Option.none
              gap_to_winner :=
                if race_or_sprint && !positionIsOne row then
                  first_available_interval row ["GapToLeader", "Time"]
                else if race_or_sprint && positionIsOne row then some "0:00:00"
                else Option.none }

/-- A loaded session as `_load_session_results` consumes it: its name and its
result rows (each row a map from field name to raw value; absent fields are
`Raw.none`, matching `row.get`). -/
structure SessionData where
  name : Option String
  results : List (String → Raw)

/-- Row-by-row traversal of the source's list comprehension: rows are mapped
in order and the first raising row aborts the whole list. -/
def mapRows (race_or_sprint non_race_timed : Bool) :
    List (String → Raw) → Except PyErr (List DriverResult)
  | [] => Except.ok []
  | row :: rest =>
    match mapResultRow race_or_sprint non_race_timed row with
    | Except.error e => Except.error e
    | Except.ok d =>
      match mapRows race_or_sprint non_race_timed rest with
      | Except.error e => Except.error e
      | Except.ok ds => Except.ok (d :: ds)

/-- Model of the mapping stage of `_load_session_results` (source lines
218-252), taking the already-loaded session: the fetch-with-retry stage is
modelled separately by `load_session_with_retry`. -/
def loadSessionResultRows (session_obj : SessionData) : Except PyErr (List DriverResult) :=
  mapRows (is_race_or_sprint (pyLower (session_obj.name.getD "")))
    (is_non_race_timed (pyLower (session_obj.name.getD ""))) session_obj.results

/-- Source line 31: maximum number of fetch-then-load attempts. -/
def MAX_SESSION_LOAD_ATTEMPTS : Nat := 3

/-- Source line 32: fixed delay, in seconds, slept between attempts. -/
def SESSION_LOAD_RETRY_DELAY_SECONDS : Nat := 1

/-- The retry loop of `load_session_with_retry` (source lines 66-82).
`attemptF i` is the outcome of attempt number `i` (one fetch-then-load call
against the session provider); `idx` is the next attempt number, `lastErr`
the recorded `last_error`, `done` the number of attempts performed so far and
`sleeps` the list of sleep durations performed so far. Returns the final
outcome (`Except.error lastErr` models `raise last_error`) together with the
total attempt count and sleep trace. A sleep occurs only when further
attempts remain (`attempt < MAX_SESSION_LOAD_ATTEMPTS`). -/
def retryLoop {E S : Type} (attemptF : Nat → Except E S) (idx : Nat) (lastErr : Option E)
    (done : Nat) (sleeps : List Nat) : Nat → (Except (Option E) S) × Nat × List Nat
  | 0 => (Except.error lastErr, done, sleeps)
  | remaining + 1 =>
    match attemptF idx with
    | Except.ok s => (Except.ok s, done + 1, sleeps)
    | Except.error e =>
      if remaining = 0 then
        retryLoop attemptF (idx + 1) (some e) (done + 1) sleeps remaining
      else
        retryLoop attemptF (idx + 1) (some e) (done + 1)
          (sleeps ++ [SESSION_LOAD_RETRY_DELAY_SECONDS]) remaining

/-- Model of `load_session_with_retry` (source lines 56-82): up to 3 attempts
starting at attempt number 1, with `last_error` initially `None`. -/
def load_session_with_retry {E S : Type} (attemptF : Nat → Except E S) :
    (Except (Option E) S) × Nat × List Nat :=
  retryLoop attemptF 1 Option.none 0 [] MAX_SESSION_LOAD_ATTEMPTS

/-- Model of the circuit-map pipeline's stance toward the loader (source
lines 284-297): the retrying loader runs first; only after it has returned a
session handle is the fastest lap inspected, and a missing lap raises
`ValueError("No lap data found for this session")` outside the retry loop.
The payload extraction that follows a present lap is abstracted to returning
the lap itself. -/
def circuitMapLoadStage {E S L : Type} (attemptF : Nat → Except E S)
    (pickFastest : S → Option L) : (Except (Option E ⊕ PyErr) L) × Nat × List Nat :=
  match load_session_with_retry attemptF with
  | (Except.error e, a, sl) => (Except.error (Sum.inl e), a, sl)
  | (Except.ok s, a, sl) =>
    match pickFastest s with
    | Option.none =>
      (Except.error (Sum.inr (PyErr.noDataForSession "No lap data found for this session")), a, sl)
    | some l => (Except.ok l, a, sl)

/-- One deduplicated entry of the `sessions` handler's output. -/
structure SessionSummary where
  session_name : String
  session_date : String
deriving DecidableEq, Repr

/-- The dedup key the source computes for a summary: lowercased name paired
with the normalized date (source line 192). -/
def sessionKey (s : SessionSummary) : String × String :=
  (pyLower s.session_name, s.session_date)

/-- The session-slot loop of the `sessions` handler (source lines 177-202).
A slot is a `(name, date)` pair of raw values; `normDate` models
`pd.Timestamp(...).isoformat()`; `seen` is the set (as a list) of dedup keys
already emitted for this round. Slots with NaN/blank names or NaN dates are
skipped; a slot whose `(lowercased trimmed name, normalized date)` key was
already seen is skipped; otherwise the summary is emitted in slot order. -/
def sessionsGo (normDate : Raw → String) :
    List (Raw × Raw) → List (String × String) → List SessionSummary
  | [], _ => []
  | slot :: rest, seen =>
    if pdIsna slot.1 || pyTrim (pyStr slot.1) == "" then sessionsGo normDate rest seen
    else if pdIsna slot.2 then sessionsGo normDate rest seen
    else
      let normalized_name := pyTrim (pyStr slot.1)
      let normalized_date := normDate slot.2
      let dedupe_key := (pyLower normalized_name, normalized_date)
      if dedupe_key ∈ seen then sessionsGo normDate rest seen
      else
        { session_name := normalized_name, session_date := normalized_date } ::
          sessionsGo normDate rest (dedupe_key :: seen)

/-- The `sessions` handler's session list for one event row, given its five
session slots in order (source lines 174-204). -/
def sessionsOfEvent (normDate : Raw → String) (slots : List (Raw × Raw)) :
    List SessionSummary :=
  sessionsGo normDate slots []

/-- The summaries the slot loop would emit with deduplication disabled: one
candidate per valid slot, in slot order. Used to state that the emitted list
preserves slot-encounter order. -/
def sessionCandidates (normDate : Raw → String) : List (Raw × Raw) → List SessionSummary
  | [] => []
  | slot :: rest =>
    if pdIsna slot.1 || pyTrim (pyStr slot.1) == "" then sessionCandidates normDate rest
    else if pdIsna slot.2 then sessionCandidates normDate rest
    else
      { session_name := pyTrim (pyStr slot.1), session_date := normDate slot.2 } ::
        sessionCandidates normDate rest

/-- Capacity of the in-process schedule memo (`lru_cache(maxsize=16)`,
source line 42). -/
def LRU_CAPACITY : Nat := 16

/-- State surrounding `get_schedule`: the `lru_cache` memo (most recent
first), the persistent `schedule:{year}` entries of the api cache, and a
count of upstream fetch invocations performed so far. -/
structure SchedState (Sched : Type) where
  memo : List (Nat × Sched)
  disk : Nat → Option Sched
  fetchCount : Nat

/-- Memo lookup by year. -/
def lruGet {Sched : Type} (memo : List (Nat × Sched)) (y : Nat) : Option Sched :=
  (memo.find? (fun e => e.1 == y)).map (fun e => e.2)

/-- Recency update on a memo hit: move the year's entry to the front. -/
def lruTouch {Sched : Type} (memo : List (Nat × Sched)) (y : Nat) : List (Nat × Sched) :=
  match memo.find? (fun e => e.1 == y) with
  | Option.none => memo
  | some e => e :: memo.filter (fun e2 => e2.1 != y)

/-- Memoize a returned value: insert at the front and evict beyond the
capacity. -/
def lruPut {Sched : Type} (memo : List (Nat × Sched)) (y : Nat) (s : Sched) :
    List (Nat × Sched) :=
  ((y, s) :: memo.filter (fun e => e.1 != y)).take LRU_CAPACITY

/-- Model of `get_schedule` (source lines 42-53) under `lru_cache` semantics:
a memo hit returns the memoized value without calling the wrapped function; a
miss runs the body — upstream fetch, on success write-through to the
persistent entry, on failure fall back to the persistent entry if present,
else re-raise. `functools.lru_cache` memoizes returned values only: a raising
call stores nothing. `fetch n y` is the outcome of the `n`-th upstream fetch
invocation (counted from 0) for year `y`. -/
def get_schedule {Sched : Type} (fetch : Nat → Nat → Except String Sched)
    (st : SchedState Sched) (y : Nat) : Except String Sched × SchedState Sched :=
  match lruGet st.memo y with
  | some s => (Except.ok s, { st with memo := lruTouch st.memo y })
  | Option.none =>
    match fetch st.fetchCount y with
    | Except.ok s =>
      (Except.ok s,
        { memo := lruPut st.memo y s
          disk := fun y2 => if y2 = y then some s else st.disk y2
          fetchCount := st.fetchCount + 1 })
    | Except.error e =>
      match st.disk y with
      | some c =>
        (Except.ok c,
         { memo := lruPut st.memo y c, disk := st.disk, fetchCount := st.fetchCount + 1 })
      | Option.none => (Except.error e, { st with fetchCount := st.fetchCount + 1 })

/-- Source lines 26-30: the cache TTLs, in seconds. -/
def SESSION_RESULTS_FRESH_TTL : Nat := 60 * 60

/-- Stale-tier TTL for session results. -/
def SESSION_RESULTS_STALE_TTL : Nat := 60 * 60 * 24 * 7

/-- Fresh-tier TTL for circuit maps. -/
def CIRCUIT_MAP_FRESH_TTL : Nat := 60 * 60 * 24

/-- Stale-tier TTL for circuit maps. -/
def CIRCUIT_MAP_STALE_TTL : Nat := 60 * 60 * 24 * 30

/-- One corner record of a circuit-map payload (source lines 308-315). -/
structure CornerData where
  number : Option String
  letter : Raw
  angle : Option Raw
  x : Raw
  y : Raw
deriving DecidableEq, Repr

/-- A circuit-map payload (source lines 319-325). -/
structure CircuitMapData where
  event_name : Raw
  session_name : Option String
  rotation : Raw
  track_points : List (Raw × Raw)
  corners : List CornerData
deriving DecidableEq, Repr

/-- Structured cache keys of the tiered result cache, mirroring the source's
namespaced key strings (which are collision-free across domains). -/
inductive Key where
  | srFresh (year round : Nat) (session : String)
  | srStale (year round : Nat) (session : String)
  | cmFresh (year round : Nat) (session : String)
  | cmStale (year round : Nat) (session : String)
deriving DecidableEq, Repr

/-- The key string the source builds for each structured key (source lines
257-258 and 330-331). -/
def Key.render : Key → String
  | Key.srFresh y r s => "session_results:fresh:" ++ toString y ++ ":" ++ toString r ++ ":" ++ s
  | Key.srStale y r s => "session_results:stale:" ++ toString y ++ ":" ++ toString r ++ ":" ++ s
  | Key.cmFresh y r s => "circuit_map:fresh:" ++ toString y ++ ":" ++ toString r ++ ":" ++ s
  | Key.cmStale y r s => "circuit_map:stale:" ++ toString y ++ ":" ++ toString r ++ ":" ++ s

/-- A cached payload: session results or a circuit map. -/
inductive Payload where
  | sr (rs : List DriverResult)
  | cm (m : CircuitMapData)
deriving DecidableEq, Repr

/-- The api cache's tiered-key contents: each present entry holds its payload
and the TTL it was written with. -/
def Store : Type := Key → Option (Payload × Nat)

/-- `api_cache.set(key, value, expire=ttl)`. -/
def Store.set (st : Store) (k : Key) (v : Payload) (ttl : Nat) : Store :=
  fun k2 => if k2 = k then some (v, ttl) else st k2

/-- The store with no entries. -/
def emptyStore : Store := fun _ => Option.none

/-- An HTTP error response as raised by `HTTPException(status_code=...,
detail={"error": ..., "details": ...})`. -/
structure HttpErr where
  status : Nat
  error : String
  details : String
deriving DecidableEq, Repr

/-- Model of the `session_results` handler (source lines 255-281).
`compute` is the outcome `_load_session_results(year, round, session)` would
produce if invoked. Returns the response (payload or HTTP error), the store
after the call, and the number of times the compute step was invoked. -/
def session_results (year round : Nat) (session : String)
    (compute : Except PyErr (List DriverResult)) (st : Store) :
    Except HttpErr Payload × Store × Nat :=
  match st (Key.srFresh year round session) with
  | some (v, _) => (Except.ok v, st, 0)
  | Option.none =>
    match compute with
    | Except.ok rs =>
      let payload := Payload.sr rs
      let st1 := st.set (Key.srFresh year round session) payload SESSION_RESULTS_FRESH_TTL
      let st2 := st1.set (Key.srStale year round session) payload SESSION_RESULTS_STALE_TTL
      (Except.ok payload, st2, 1)
    | Except.error e =>
      match st (Key.srStale year round session) with
      | some (v, _) => (Except.ok v, st, 1)
      | Option.none =>
        (Except.error
          { status := 502, error := "Failed to fetch session results", details := e.msg },
         st, 1)

/-- Model of the `circuit_map` handler (source lines 328-350); the route's
`session` parameter defaults to `"R"` at the HTTP layer. -/
def circuit_map (year round : Nat) (session : String)
    (compute : Except PyErr CircuitMapData) (st : Store) :
    Except HttpErr Payload × Store × Nat :=
  match st (Key.cmFresh year round session) with
  | some (v, _) => (Except.ok v, st, 0)
  | Option.none =>
    match compute with
    | Except.ok m =>
      let payload := Payload.cm m
      let st1 := st.set (Key.cmFresh year round session) payload CIRCUIT_MAP_FRESH_TTL
      let st2 := st1.set (Key.cmStale year round session) payload CIRCUIT_MAP_STALE_TTL
      (Except.ok payload, st2, 1)
    | Except.error e =>
      match st (Key.cmStale year round session) with
      | some (v, _) => (Except.ok v, st, 1)
      | Option.none =>
        (Except.error
          { status := 502, error := "Failed to fetch circuit map", details := e.msg },
         st, 1)

/-- One event in the life of the tiered cache: a `session_results` call, a
`circuit_map` call (each with the outcome its compute step would produce if
invoked), or passive TTL expiry removing one entry. -/
inductive CacheStep where
  | srCall (year round : Nat) (session : String) (compute : Except PyErr (List DriverResult))
  | cmCall (year round : Nat) (session : String) (compute : Except PyErr CircuitMapData)
  | expire (k : Key)

/-- Cache store paired with the ghost map recording, per stale key, the most
recent successfully computed payload. -/
structure RunState where
  store : Store
  lastOk : Key → Option Payload

/-- The initial state: empty store, no successes recorded. -/
def initRun : RunState :=
  { store := emptyStore, lastOk := fun _ => Option.none }

/-- Apply one cache event. The ghost `lastOk` is updated exactly when a call
misses the fresh tier and its compute step succeeds. -/
def applyStep (st : RunState) : CacheStep → RunState
  | CacheStep.srCall y r sess compute =>
    { store := (session_results y r sess compute st.store).2.1
      lastOk :=
        match st.store (Key.srFresh y r sess), compute with
        | Option.none, Except.ok rs =>
          fun k => if k = Key.srStale y r sess then some (Payload.sr rs) else st.lastOk k
        | _, _ => st.lastOk }
  | CacheStep.cmCall y r sess compute =>
    { store := (circuit_map y r sess compute st.store).2.1
      lastOk :=
        match st.store (Key.cmFresh y r sess), compute with
        | Option.none, Except.ok m =>
          fun k => if k = Key.cmStale y r sess then some (Payload.cm m) else st.lastOk k
        | _, _ => st.lastOk }
  | CacheStep.expire k =>
    { store := fun k2 => if k2 = k then Option.none else st.store k2
      lastOk := st.lastOk }

/-- Run a sequence of cache events from the initial state. -/
def runSteps (steps : List CacheStep) : RunState :=
  steps.foldl applyStep initRun

/-- Whether a key belongs to the stale tier. -/
def isStaleKey : Key → Bool
  | Key.srStale _ _ _ => true
  | Key.cmStale _ _ _ => true
  | _ => false

/-- The stale-tier invariant: every present stale entry holds the most recent
successfully computed payload for its key. -/
def StaleInv (st : RunState) : Prop :=
  ∀ k v t, isStaleKey k = true → st.store k = some (v, t) → st.lastOk k = some v

theorem session_results_of_fresh (year round : Nat) (session : String)
    (compute : Except PyErr (List DriverResult)) (st : Store) (v : Payload) (t : Nat)
    (hf : st (Key.srFresh year round session) = some (v, t)) :
    session_results year round session compute st = (Except.ok v, st, 0) := by
  unfold session_results
  rw [hf]

theorem session_results_of_ok (year round : Nat) (session : String)
    (rs : List DriverResult) (st : Store)
    (hf : st (Key.srFresh year round session) = Option.none) :
    session_results year round session (Except.ok rs) st =
      (Except.ok (Payload.sr rs),
       (st.set (Key.srFresh year round session) (Payload.sr rs) SESSION_RESULTS_FRESH_TTL).set
         (Key.srStale year round session) (Payload.sr rs) SESSION_RESULTS_STALE_TTL,
       1) := by
  unfold session_results
  rw [hf]

theorem session_results_of_error_stale (year round : Nat) (session : String)
    (e : PyErr) (st : Store) (w : Payload) (t : Nat)
    (hf : st (Key.srFresh year round session) = Option.none)
    (hs : st (Key.srStale year round session) = some (w, t)) :
    session_results year round session (Except.error e) st = (Except.ok w, st, 1) := by
  unfold session_results
  rw [hf, hs]

theorem session_results_of_error_none (year round : Nat) (session : String)
    (e : PyErr) (st : Store)
    (hf : st (Key.srFresh year round session) = Option.none)
    (hs : st (Key.srStale year round session) = Option.none) :
    session_results year round session (Except.error e) st =
      (Except.error
        { status := 502, error := "Failed to fetch session results", details := e.msg },
       st, 1) := by
  unfold session_results
  rw [hf, hs]

theorem circuit_map_of_fresh (year round : Nat) (session : String)
    (compute : Except PyErr CircuitMapData) (st : Store) (v : Payload) (t : Nat)
    (hf : st (Key.cmFresh year round session) = some (v, t)) :
    circuit_map year round session compute st = (Except.ok v, st, 0) := by
  unfold circuit_map
  rw [hf]

theorem circuit_map_of_ok (year round : Nat) (session : String)
    (m : CircuitMapData) (st : Store)
    (hf : st (Key.cmFresh year round session) = Option.none) :
    circuit_map year round session (Except.ok m) st =
      (Except.ok (Payload.cm m),
       (st.set (Key.cmFresh year round session) (Payload.cm m) CIRCUIT_MAP_FRESH_TTL).set
         (Key.cmStale year round session) (Payload.cm m) CIRCUIT_MAP_STALE_TTL,
       1) := by
  unfold circuit_map
  rw [hf]

theorem circuit_map_of_error_stale (year round : Nat) (session : String)
    (e : PyErr) (st : Store) (w : Payload) (t : Nat)
    (hf : st (Key.cmFresh year round session) = Option.none)
    (hs : st (Key.cmStale year round session) = some (w, t)) :
    circuit_map year round session (Except.error e) st = (Except.ok w, st, 1) := by
  unfold circuit_map
  rw [hf, hs]

theorem circuit_map_of_error_none (year round : Nat) (session : String)
    (e : PyErr) (st : Store)
    (hf : st (Key.cmFresh year round session) = Option.none)
    (hs : st (Key.cmStale year round session) = Option.none) :
    circuit_map year round session (Except.error e) st =
      (Except.error
        { status := 502, error := "Failed to fetch circuit map", details := e.msg },
       st, 1) := by
  unfold circuit_map
  rw [hf, hs]

/-- C1: tiered result cache fresh-hit short-circuit. For every key
`(year, round, session)` of the `session_results` and `circuit_map`
operations, if a fresh-tier entry holds `(v, t)` then the call returns the
cached payload `v`, leaves the store untouched (no cache write and no TTL
refresh), and performs zero invocations of the compute step — for every
possible compute outcome. -/
theorem fresh_hit_short_circuit (year round : Nat) (session : String) (st : Store) :
    (∀ (v : Payload) (t : Nat) (compute : Except PyErr (List DriverResult)),
        st (Key.srFresh year round session) = some (v, t) →
        session_results year round session compute st = (Except.ok v, st, 0))
  ∧ (∀ (v : Payload) (t : Nat) (compute : Except PyErr CircuitMapData),
        st (Key.cmFresh year round session) = some (v, t) →
        circuit_map year round session compute st = (Except.ok v, st, 0)) := by
  constructor
  · intro v t compute hf
    exact session_results_of_fresh year round session compute st v t hf
  · intro v t compute hf
    exact circuit_map_of_fresh year round session compute st v t hf

/-- A concrete store with a fresh entry for each of the two operations. -/
def witnessStore : Store := fun k =>
  if k = Key.srFresh 2024 1 "R" then some (Payload.sr [], 30)
  else if k = Key.cmFresh 2024 1 "R" then some (Payload.sr [], 40)
  else Option.none

/-- Witness for C1 at a concrete store and a compute step that would raise:
the cached payload is returned, the store is unchanged and compute runs zero
times. -/
theorem fresh_hit_short_circuit_witness :
    session_results 2024 1 "R" (Except.error (PyErr.upstreamUnavailable "socket timeout"))
        witnessStore = (Except.ok (Payload.sr []), witnessStore, 0)
  ∧ circuit_map 2024 1 "R" (Except.error (PyErr.upstreamUnavailable "socket timeout"))
        witnessStore = (Except.ok (Payload.sr []), witnessStore, 0) :=
  ⟨(fresh_hit_short_circuit 2024 1 "R" witnessStore).1 (Payload.sr []) 30 _ rfl,
   (fresh_hit_short_circuit 2024 1 "R" witnessStore).2 (Payload.sr []) 40 _ rfl⟩

/-- C2: tiered result cache failure path. For every key with no fresh-tier
entry, when the compute step raises `e` the call returns exactly the
stale-tier payload when one is present (no error surfaced); with no stale
entry either, it raises a 502 error carrying the fixed `error` label and the
original exception's message as `details`. Both operations behave alike. -/
theorem stale_fallback_and_no_fallback (year round : Nat) (session : String)
    (st : Store) (e : PyErr) :
    (st (Key.srFresh year round session) = Option.none →
       (∀ w t, st (Key.srStale year round session) = some (w, t) →
          session_results year round session (Except.error e) st = (Except.ok w, st, 1))
     ∧ (st (Key.srStale year round session) = Option.none →
          session_results year round session (Except.error e) st =
            (Except.error
              { status := 502, error := "Failed to fetch session results", details := e.msg },
             st, 1)))
  ∧ (st (Key.cmFresh year round session) = Option.none →
       (∀ w t, st (Key.cmStale year round session) = some (w, t) →
          circuit_map year round session (Except.error e) st = (Except.ok w, st, 1))
     ∧ (st (Key.cmStale year round session) = Option.none →
          circuit_map year round session (Except.error e) st =
            (Except.error
              { status := 502, error := "Failed to fetch circuit map", details := e.msg },
             st, 1))) := by
  constructor
  · intro hf
    constructor
    · intro w t hs
      exact session_results_of_error_stale year round session e st w t hf hs
    · intro hs
      exact session_results_of_error_none year round session e st hf hs
  · intro hf
    constructor
    · intro w t hs
      exact circuit_map_of_error_stale year round session e st w t hf hs
    · intro hs
      exact circuit_map_of_error_none year round session e st hf hs

/-- A concrete store holding only a stale session-results entry. -/
def staleOnlyStore : Store := fun k =>
  if k = Key.srStale 2024 1 "R" then some (Payload.sr [], 600) else Option.none

/-- Witness for C2: with a stale entry present the stale payload is served;
on the empty store the 502 error carries the compute exception's message. -/
theorem stale_fallback_and_no_fallback_witness :
    session_results 2024 1 "R" (Except.error (PyErr.upstreamUnavailable "connection reset"))
        staleOnlyStore = (Except.ok (Payload.sr []), staleOnlyStore, 1)
  ∧ session_results 2024 1 "R" (Except.error (PyErr.upstreamUnavailable "connection reset"))
        emptyStore =
      (Except.error
        { status := 502, error := "Failed to fetch session results",
          details := "connection reset" },
       emptyStore, 1) :=
  ⟨((stale_fallback_and_no_fallback 2024 1 "R" staleOnlyStore
      (PyErr.upstreamUnavailable "connection reset")).1 rfl).1 (Payload.sr []) 600 rfl,
   ((stale_fallback_and_no_fallback 2024 1 "R" emptyStore
      (PyErr.upstreamUnavailable "connection reset")).1 rfl).2 rfl⟩

theorem staleKey_ne_srFresh (k : Key) (y r : Nat) (s : String)
    (hk : isStaleKey k = true) : k ≠ Key.srFresh y r s := by
  intro h
  subst h
  simp [isStaleKey] at hk

theorem staleKey_ne_cmFresh (k : Key) (y r : Nat) (s : String)
    (hk : isStaleKey k = true) : k ≠ Key.cmFresh y r s := by
  intro h
  subst h
  simp [isStaleKey] at hk

theorem applyStep_staleInv (st : RunState) (step : CacheStep) (h : StaleInv st) :
    StaleInv (applyStep st step) := by
  cases step with
  | srCall y r sess compute =>
    intro k v t hk hsk
    cases hf : st.store (Key.srFresh y r sess) with
    | some p =>
      obtain ⟨w, tw⟩ := p
      simp only [applyStep, hf,
        session_results_of_fresh y r sess compute st.store w tw hf] at hsk ⊢
      exact h k v t hk hsk
    | none =>
      cases compute with
      | ok rs =>
        simp only [applyStep, hf, session_results_of_ok y r sess rs st.store hf] at hsk ⊢
        by_cases hks : k = Key.srStale y r sess
        · subst hks
          simp only [Store.set, if_pos rfl] at hsk
          obtain ⟨hv, ht⟩ := Prod.mk.injEq .. ▸ Option.some.injEq .. ▸ hsk
          simp [← hv]
        · have hkf : k ≠ Key.srFresh y r sess := staleKey_ne_srFresh k y r sess hk
          simp only [Store.set, if_neg hks, if_neg hkf] at hsk
          simp only [if_neg hks]
          exact h k v t hk hsk
      | error e =>
        cases hs : st.store (Key.srStale y r sess) with
        | some q =>
          obtain ⟨w, tw⟩ := q
          simp only [applyStep, hf,
            session_results_of_error_stale y r sess e st.store w tw hf hs] at hsk ⊢
          exact h k v t hk hsk
        | none =>
          simp only [applyStep, hf,
            session_results_of_error_none y r sess e st.store hf hs] at hsk ⊢
          exact h k v t hk hsk
  | cmCall y r sess compute =>
    intro k v t hk hsk
    cases hf : st.store (Key.cmFresh y r sess) with
    | some p =>
      obtain ⟨w, tw⟩ := p
      simp only [applyStep, hf,
        circuit_map_of_fresh y r sess compute st.store w tw hf] at hsk ⊢
      exact h k v t hk hsk
    | none =>
      cases compute with
      | ok m =>
        simp only [applyStep, hf, circuit_map_of_ok y r sess m st.store hf] at hsk ⊢
        by_cases hks : k = Key.cmStale y r sess
        · subst hks
          simp only [Store.set, if_pos rfl] at hsk
          obtain ⟨hv, ht⟩ := Prod.mk.injEq .. ▸ Option.some.injEq .. ▸ hsk
          simp [← hv]
        · have hkf : k ≠ Key.cmFresh y r sess := staleKey_ne_cmFresh k y r sess hk
          simp only [Store.set, if_neg hks, if_neg hkf] at hsk
          simp only [if_neg hks]
          exact h k v t hk hsk
      | error e =>
        cases hs : st.store (Key.cmStale y r sess) with
        | some q =>
          obtain ⟨w, tw⟩ := q
          simp only [applyStep, hf,
            circuit_map_of_error_stale y r sess e st.store w tw hf hs] at hsk ⊢
          exact h k v t hk hsk
        | none =>
          simp only [applyStep, hf,
            circuit_map_of_error_none y r sess e st.store hf hs] at hsk ⊢
          exact h k v t hk hsk
  | expire k0 =>
    intro k v t hk hsk
    simp only [applyStep] at hsk ⊢
    by_cases hkk : k = k0
    · subst hkk
      simp only [if_pos rfl] at hsk
      exact Option.noConfusion hsk
    · simp only [if_neg hkk] at hsk
      exact h k v t hk hsk

theorem runSteps_staleInv (steps : List CacheStep) : StaleInv (runSteps steps) := by
  have hgen : ∀ st, StaleInv st → StaleInv (List.foldl applyStep st steps) := by
    induction steps with
    | nil => intro st h; exact h
    | cons a rest ih =>
      intro st h
      exact ih (applyStep st a) (applyStep_staleInv st a h)
  exact hgen initRun (by intro k v t hk hs; exact Option.noConfusion hs)

/-- C3: write-through on success and the stale-tier invariant. A successful
compute on a fresh miss writes the identical returned payload to both tiers
with their respective TTLs (for both operations), and in every state
reachable from the empty store through any sequence of calls and TTL
expiries, a non-empty stale entry holds the most recent successfully
computed payload for its key — stale entries are written only on success,
never on any failure path. -/
theorem write_through_and_stale_invariant :
    (∀ (year round : Nat) (session : String) (rs : List DriverResult) (st : Store),
       st (Key.srFresh year round session) = Option.none →
       (session_results year round session (Except.ok rs) st).1 =
           Except.ok (Payload.sr rs)
         ∧ (session_results year round session (Except.ok rs) st).2.1
             (Key.srFresh year round session) =
           some (Payload.sr rs, SESSION_RESULTS_FRESH_TTL)
         ∧ (session_results year round session (Except.ok rs) st).2.1
             (Key.srStale year round session) =
           some (Payload.sr rs, SESSION_RESULTS_STALE_TTL))
  ∧ (∀ (year round : Nat) (session : String) (m : CircuitMapData) (st : Store),
       st (Key.cmFresh year round session) = Option.none →
       (circuit_map year round session (Except.ok m) st).1 = Except.ok (Payload.cm m)
         ∧ (circuit_map year round session (Except.ok m) st).2.1
             (Key.cmFresh year round session) =
           some (Payload.cm m, CIRCUIT_MAP_FRESH_TTL)
         ∧ (circuit_map year round session (Except.ok m) st).2.1
             (Key.cmStale year round session) =
           some (Payload.cm m, CIRCUIT_MAP_STALE_TTL))
  ∧ (∀ steps : List CacheStep, StaleInv (runSteps steps)) := by
  refine ⟨?_, ?_, runSteps_staleInv⟩
  · intro year round session rs st hf
    rw [session_results_of_ok year round session rs st hf]
    refine ⟨rfl, ?_, ?_⟩
    · simp [Store.set]
    · simp [Store.set]
  · intro year round session m st hf
    rw [circuit_map_of_ok year round session m st hf]
    refine ⟨rfl, ?_, ?_⟩
    · simp [Store.set]
    · simp [Store.set]

/-- Witness for C3 on the empty store: after a successful compute both tiers
hold the identical payload with their configured TTLs. -/
theorem write_through_and_stale_invariant_witness :
    (session_results 2024 1 "R" (Except.ok []) emptyStore).1 = Except.ok (Payload.sr [])
  ∧ (session_results 2024 1 "R" (Except.ok []) emptyStore).2.1 (Key.srFresh 2024 1 "R") =
      some (Payload.sr [], SESSION_RESULTS_FRESH_TTL)
  ∧ (session_results 2024 1 "R" (Except.ok []) emptyStore).2.1 (Key.srStale 2024 1 "R") =
      some (Payload.sr [], SESSION_RESULTS_STALE_TTL) :=
  write_through_and_stale_invariant.1 2024 1 "R" [] emptyStore rfl

/-- C4: retry bound and success path of `load_session_with_retry`. When
every attempt raises, the loader performs exactly 3 attempts with exactly 2
intervening 1-second delays and then raises the third attempt's exception
unchanged; when attempt `n` succeeds after failures on all earlier attempts,
it returns that attempt's session handle after exactly `n` attempts and
`n - 1` delays. -/
theorem retry_attempt_and_delay_counts {E S : Type} (attemptF : Nat → Except E S) :
    ((∀ i, 1 ≤ i → i ≤ MAX_SESSION_LOAD_ATTEMPTS → ∃ e, attemptF i = Except.error e) →
       ∃ e3, attemptF 3 = Except.error e3 ∧
         load_session_with_retry attemptF =
           (Except.error (some e3), 3,
            [SESSION_LOAD_RETRY_DELAY_SECONDS, SESSION_LOAD_RETRY_DELAY_SECONDS]))
  ∧ (∀ n s, 1 ≤ n → n ≤ MAX_SESSION_LOAD_ATTEMPTS → attemptF n = Except.ok s →
       (∀ i, 1 ≤ i → i < n → ∃ e, attemptF i = Except.error e) →
       load_session_with_retry attemptF =
         (Except.ok s, n, List.replicate (n - 1) SESSION_LOAD_RETRY_DELAY_SECONDS)) := by
  constructor
  · intro h
    obtain ⟨e1, h1⟩ := h 1 (by decide) (by decide)
    obtain ⟨e2, h2⟩ := h 2 (by decide) (by decide)
    obtain ⟨e3, h3⟩ := h 3 (by decide) (by decide)
    refine ⟨e3, h3, ?_⟩
    show retryLoop attemptF 1 Option.none 0 [] (2 + 1) = _
    rw [retryLoop, h1]
    show retryLoop attemptF 2 (some e1) 1 [SESSION_LOAD_RETRY_DELAY_SECONDS] (1 + 1) = _
    rw [retryLoop, h2]
    show retryLoop attemptF 3 (some e2) 2
        [SESSION_LOAD_RETRY_DELAY_SECONDS, SESSION_LOAD_RETRY_DELAY_SECONDS] (0 + 1) = _
    rw [retryLoop, h3]
    rfl
  · intro n s hn1 hn3 hok hfail
    rw [show MAX_SESSION_LOAD_ATTEMPTS = 3 from rfl] at hn3
    interval_cases n
    · show retryLoop attemptF 1 Option.none 0 [] (2 + 1) = _
      rw [retryLoop, hok]
      rfl
    · obtain ⟨e1, h1⟩ := hfail 1 (by decide) (by decide)
      show retryLoop attemptF 1 Option.none 0 [] (2 + 1) = _
      rw [retryLoop, h1]
      show retryLoop attemptF 2 (some e1) 1 [SESSION_LOAD_RETRY_DELAY_SECONDS] (1 + 1) = _
      rw [retryLoop, hok]
      rfl
    · obtain ⟨e1, h1⟩ := hfail 1 (by decide) (by decide)
      obtain ⟨e2, h2⟩ := hfail 2 (by decide) (by decide)
      show retryLoop attemptF 1 Option.none 0 [] (2 + 1) = _
      rw [retryLoop, h1]
      show retryLoop attemptF 2 (some e1) 1 [SESSION_LOAD_RETRY_DELAY_SECONDS] (1 + 1) = _
      rw [retryLoop, h2]
      show retryLoop attemptF 3 (some e2) 2
          [SESSION_LOAD_RETRY_DELAY_SECONDS, SESSION_LOAD_RETRY_DELAY_SECONDS] (0 + 1) = _
      rw [retryLoop, hok]
      rfl

/-- An attempt function that fails twice with distinct errors and succeeds
on the third attempt. -/
def thirdTimeLucky : Nat → Except String Nat := fun i =>
  if i = 1 then Except.error "timeout A"
  else if i = 2 then Except.error "timeout B"
  else Except.ok 77

/-- Witness for C4: the always-failing loader performs 3 attempts and 2
one-second delays and raises the last error; a loader succeeding on attempt
3 returns its handle after 3 attempts and 2 delays. -/
theorem retry_attempt_and_delay_counts_witness :
    load_session_with_retry (fun _ => (Except.error "upstream down" : Except String Nat)) =
      (Except.error (some "upstream down"), 3,
       [SESSION_LOAD_RETRY_DELAY_SECONDS, SESSION_LOAD_RETRY_DELAY_SECONDS])
  ∧ load_session_with_retry thirdTimeLucky =
      (Except.ok 77, 3, List.replicate 2 SESSION_LOAD_RETRY_DELAY_SECONDS) := by
  constructor
  · obtain ⟨e3, he3, hrun⟩ :=
      (retry_attempt_and_delay_counts
        (fun _ => (Except.error "upstream down" : Except String Nat))).1
        (fun i _ _ => ⟨"upstream down", rfl⟩)
    have he : e3 = "upstream down" := by
      simpa using he3.symm
    rw [he] at hrun
    exact hrun
  · exact (retry_attempt_and_delay_counts thirdTimeLucky).2 3 77 (by decide) (by decide) rfl
      (fun i hi1 hi3 => by
        interval_cases i
        · exact ⟨"timeout A", rfl⟩
        · exact ⟨"timeout B", rfl⟩)

/-- Counterexample to C7 as stated: an attempt that raises a NotFound-class
error is retried like any other — the loader performs 3 attempts and 2
delays rather than the claimed single attempt with no delay, because the
source's `except Exception` catches every exception class. -/
theorem notfound_retried_counterexample :
    load_session_with_retry
        (fun _ => (Except.error (PyErr.notFound "Round not found") : Except PyErr Nat)) =
      (Except.error (some (PyErr.notFound "Round not found")), 3,
       [SESSION_LOAD_RETRY_DELAY_SECONDS, SESSION_LOAD_RETRY_DELAY_SECONDS])
  ∧ ¬ (3 : Nat) = 1 ∧ ¬ ([SESSION_LOAD_RETRY_DELAY_SECONDS, SESSION_LOAD_RETRY_DELAY_SECONDS] : List Nat) = [] :=
  ⟨rfl, by decide, by decide⟩

/-- C7 amended: the loader performs no classification at all — an attempt
failure of any error class (UpstreamUnavailable, NotFound, NoDataForSession
or ValueError alike) is retried up to the 3-attempt bound with the same
delays; the circuit-map pipeline's NoDataForSession error is not retried
only because it is raised after the loader has already returned, so a loader
that succeeds on its first attempt contributes exactly 1 attempt and no
delay even when no fastest lap exists. -/
theorem retry_unclassified {S L : Type} (e : PyErr) (attemptF : Nat → Except PyErr S) :
    ((∀ i, 1 ≤ i → i ≤ MAX_SESSION_LOAD_ATTEMPTS → attemptF i = Except.error e) →
       load_session_with_retry attemptF =
         (Except.error (some e), 3,
          [SESSION_LOAD_RETRY_DELAY_SECONDS, SESSION_LOAD_RETRY_DELAY_SECONDS]))
  ∧ (∀ (pickFastest : S → Option L) (h : S),
       attemptF 1 = Except.ok h → pickFastest h = Option.none →
       circuitMapLoadStage attemptF pickFastest =
         (Except.error (Sum.inr (PyErr.noDataForSession "No lap data found for this session")),
          1, [])) := by
  constructor
  · intro hall
    obtain ⟨e3, he3, hrun⟩ := (retry_attempt_and_delay_counts attemptF).1
      (fun i hi1 hi3 => ⟨e, hall i hi1 hi3⟩)
    rw [hall 3 (by decide) (by decide)] at he3
    have he : e3 = e := (Except.error.injEq .. ▸ he3).symm
    rw [he] at hrun
    exact hrun
  · intro pickFastest h hok hnone
    have hload : load_session_with_retry attemptF = (Except.ok h, 1, []) := by
      show retryLoop attemptF 1 Option.none 0 [] (2 + 1) = _
      rw [retryLoop, hok]
    unfold circuitMapLoadStage
    rw [hload]
    simp [hnone]

/-- Witness for C7's amended claim: a NotFound error is retried to the full
3-attempt bound, and a missing fastest lap on a first-attempt success yields
the NoDataForSession error with exactly 1 attempt and no delay. -/
theorem retry_unclassified_witness :
    load_session_with_retry
        (fun _ => (Except.error (PyErr.notFound "Session type unavailable") : Except PyErr Nat)) =
      (Except.error (some (PyErr.notFound "Session type unavailable")), 3,
       [SESSION_LOAD_RETRY_DELAY_SECONDS, SESSION_LOAD_RETRY_DELAY_SECONDS])
  ∧ circuitMapLoadStage (fun _ => (Except.ok 5 : Except PyErr Nat))
        (fun _ => (Option.none : Option Nat)) =
      (Except.error (Sum.inr (PyErr.noDataForSession "No lap data found for this session")),
       1, []) :=
  ⟨(@retry_unclassified Nat Nat (PyErr.notFound "Session type unavailable")
      (fun _ => Except.error (PyErr.notFound "Session type unavailable"))).1
      (fun _ _ _ => rfl),
   (@retry_unclassified Nat Nat (PyErr.notFound "Session type unavailable")
      (fun _ => (Except.ok 5 : Except PyErr Nat))).2
      (fun _ => (Option.none : Option Nat)) 5 rfl rfl⟩

theorem sessionsGo_sublist (normDate : Raw → String) (slots : List (Raw × Raw)) :
    ∀ seen, (sessionsGo normDate slots seen).Sublist (sessionCandidates normDate slots) := by
  induction slots with
  | nil => intro seen; simp [sessionsGo, sessionCandidates]
  | cons slot rest ih =>
    intro seen
    unfold sessionsGo sessionCandidates
    by_cases h1 : (pdIsna slot.1 || pyTrim (pyStr slot.1) == "") = true
    · simp only [h1, if_pos rfl]
      exact ih seen
    · rw [if_neg h1, if_neg h1]
      by_cases h2 : pdIsna slot.2 = true
      · simp only [h2, if_pos rfl]
        exact ih seen
      · rw [if_neg h2, if_neg h2]
        by_cases h3 : ((pyLower (pyTrim (pyStr slot.1)), normDate slot.2) ∈ seen)
        · rw [if_pos h3]
          exact List.Sublist.cons _ (ih seen)
        · rw [if_neg h3]
          exact List.Sublist.cons₂ _ (ih _)

theorem sessionsGo_keys (normDate : Raw → String) (slots : List (Raw × Raw)) :
    ∀ seen, (∀ x ∈ sessionsGo normDate slots seen, sessionKey x ∉ seen)
      ∧ (sessionsGo normDate slots seen).Pairwise
          (fun a b => sessionKey a ≠ sessionKey b) := by
  induction slots with
  | nil => intro seen; simp [sessionsGo]
  | cons slot rest ih =>
    intro seen
    unfold sessionsGo
    by_cases h1 : (pdIsna slot.1 || pyTrim (pyStr slot.1) == "") = true
    · simp only [h1, if_pos rfl]
      exact ih seen
    · rw [if_neg h1]
      by_cases h2 : pdIsna slot.2 = true
      · simp only [h2, if_pos rfl]
        exact ih seen
      · rw [if_neg h2]
        by_cases h3 : ((pyLower (pyTrim (pyStr slot.1)), normDate slot.2) ∈ seen)
        · rw [if_pos h3]
          exact ih seen
        · rw [if_neg h3]
          constructor
          · intro x hx
            rcases List.mem_cons.mp hx with hx | hx
            · subst hx
              exact h3
            · intro hmem
              exact (ih _).1 x hx (List.mem_cons_of_mem _ hmem)
          · refine List.Pairwise.cons ?_ (ih _).2
            intro b hb hkey
            have := (ih _).1 b hb
            rw [← hkey] at this
            exact this (List.mem_cons_self _ _)

/-- C8: session deduplication. For any date normalization and any slot list,
`sessions` emits at most one summary per `(lowercased trimmed name,
normalized date)` pair (the emitted keys are pairwise distinct), the emitted
list is a sublist of the per-slot candidates in slot-encounter order (order
preserved, not sorted), and the concrete pair of slots named `"Qualifying"`
and `"QUALIFYING "` with identical dates yields exactly one entry. -/
theorem sessions_dedup (normDate : Raw → String) (slots : List (Raw × Raw)) :
    (sessionsOfEvent normDate slots).Pairwise (fun a b => sessionKey a ≠ sessionKey b)
  ∧ (sessionsOfEvent normDate slots).Sublist (sessionCandidates normDate slots)
  ∧ sessionsOfEvent pyStr
      [(Raw.str "Qualifying", Raw.str "2024-03-02T15:00:00"),
       (Raw.str "QUALIFYING ", Raw.str "2024-03-02T15:00:00")] =
      [{ session_name := "Qualifying", session_date := "2024-03-02T15:00:00" }] :=
  ⟨(sessionsGo_keys normDate slots []).2, sessionsGo_sublist normDate slots [], by decide⟩

theorem lruGet_lruPut {Sched : Type} (memo : List (Nat × Sched)) (y : Nat) (s : Sched) :
    lruGet (lruPut memo y s) y = some s := by
  unfold lruGet lruPut
  rw [show LRU_CAPACITY = 15 + 1 from rfl, List.take_succ_cons]
  simp [List.find?]

theorem lruGet_lruTouch {Sched : Type} (memo : List (Nat × Sched)) (y : Nat) :
    lruGet (lruTouch memo y) y = lruGet memo y := by
  unfold lruGet lruTouch
  cases hf : memo.find? (fun e => e.1 == y) with
  | none => simp [hf]
  | some e =>
    have he := List.find?_some hf
    simp [List.find?, he, hf]

theorem get_schedule_of_hit {Sched : Type} (fetch : Nat → Nat → Except String Sched)
    (st : SchedState Sched) (y : Nat) (s : Sched) (hm : lruGet st.memo y = some s) :
    get_schedule fetch st y = (Except.ok s, { st with memo := lruTouch st.memo y }) := by
  unfold get_schedule
  rw [hm]

theorem get_schedule_of_fetch_ok {Sched : Type} (fetch : Nat → Nat → Except String Sched)
    (st : SchedState Sched) (y : Nat) (s : Sched)
    (hm : lruGet st.memo y = Option.none) (hf : fetch st.fetchCount y = Except.ok s) :
    get_schedule fetch st y =
      (Except.ok s,
       { memo := lruPut st.memo y s
         disk := fun y2 => if y2 = y then some s else st.disk y2
         fetchCount := st.fetchCount + 1 }) := by
  unfold get_schedule
  rw [hm, hf]

theorem get_schedule_of_fallback {Sched : Type} (fetch : Nat → Nat → Except String Sched)
    (st : SchedState Sched) (y : Nat) (e : String) (c : Sched)
    (hm : lruGet st.memo y = Option.none) (hf : fetch st.fetchCount y = Except.error e)
    (hd : st.disk y = some c) :
    get_schedule fetch st y =
      (Except.ok c,
       { memo := lruPut st.memo y c, disk := st.disk, fetchCount := st.fetchCount + 1 }) := by
  unfold get_schedule
  rw [hm, hf, hd]

theorem get_schedule_of_raise {Sched : Type} (fetch : Nat → Nat → Except String Sched)
    (st : SchedState Sched) (y : Nat) (e : String)
    (hm : lruGet st.memo y = Option.none) (hf : fetch st.fetchCount y = Except.error e)
    (hd : st.disk y = Option.none) :
    get_schedule fetch st y = (Except.error e, { st with fetchCount := st.fetchCount + 1 }) := by
  unfold get_schedule
  rw [hm, hf, hd]

/-- States reached by one `get_schedule` call that returned a schedule: the
served year is memoized, so an immediately subsequent call for it hits the
memo. -/
theorem get_schedule_ok_memoizes {Sched : Type} (fetch : Nat → Nat → Except String Sched)
    (st : SchedState Sched) (y : Nat) (s : Sched) (st2 : SchedState Sched)
    (h : get_schedule fetch st y = (Except.ok s, st2)) :
    lruGet st2.memo y = some s := by
  cases hm : lruGet st.memo y with
  | some s0 =>
    rw [get_schedule_of_hit fetch st y s0 hm, Prod.mk.injEq] at h
    obtain ⟨h1, h2⟩ := h
    injection h1 with h1
    subst h1 h2
    rw [lruGet_lruTouch]
    exact hm
  | none =>
    cases hf : fetch st.fetchCount y with
    | ok s1 =>
      rw [get_schedule_of_fetch_ok fetch st y s1 hm hf, Prod.mk.injEq] at h
      obtain ⟨h1, h2⟩ := h
      injection h1 with h1
      subst h1 h2
      exact lruGet_lruPut st.memo y s1
    | error e =>
      cases hd : st.disk y with
      | some c =>
        rw [get_schedule_of_fallback fetch st y e c hm hf hd, Prod.mk.injEq] at h
        obtain ⟨h1, h2⟩ := h
        injection h1 with h1
        subst h1 h2
        exact lruGet_lruPut st.memo y c
      | none =>
        rw [get_schedule_of_raise fetch st y e hm hf hd, Prod.mk.injEq] at h
        exact Except.noConfusion h.1

/-- States reached by one `get_schedule` call that raised: the memo is
unchanged (nothing is memoized for the year) and the fetch count rose by
one. -/
theorem get_schedule_error_state {Sched : Type} (fetch : Nat → Nat → Except String Sched)
    (st : SchedState Sched) (y : Nat) (e : String) (st2 : SchedState Sched)
    (h : get_schedule fetch st y = (Except.error e, st2)) :
    st2.memo = st.memo ∧ st2.fetchCount = st.fetchCount + 1
      ∧ lruGet st2.memo y = Option.none ∧ st2.disk = st.disk := by
  cases hm : lruGet st.memo y with
  | some s0 =>
    rw [get_schedule_of_hit fetch st y s0 hm, Prod.mk.injEq] at h
    exact Except.noConfusion h.1
  | none =>
    cases hf : fetch st.fetchCount y with
    | ok s1 =>
      rw [get_schedule_of_fetch_ok fetch st y s1 hm hf, Prod.mk.injEq] at h
      exact Except.noConfusion h.1
    | error e1 =>
      cases hd : st.disk y with
      | some c =>
        rw [get_schedule_of_fallback fetch st y e1 c hm hf hd, Prod.mk.injEq] at h
        exact Except.noConfusion h.1
      | none =>
        rw [get_schedule_of_raise fetch st y e1 hm hf hd, Prod.mk.injEq] at h
        obtain ⟨_, h2⟩ := h
        subst h2
        exact ⟨rfl, rfl, hm, rfl⟩

/-- C6 amended: `lru_cache` memoizes returned values only, not raised
exceptions. A `get_schedule` call that returns a schedule (freshly fetched
or recovered from the persistent entry) memoizes it, and a subsequent call
for the same year hits the memo: it returns the same schedule and performs
no upstream fetch, whatever the upstream would now do. A call that raises
(fetch failed and no persisted entry) memoizes nothing, and a subsequent
call for that year invokes the upstream fetch again. -/
theorem schedule_memo_outcome {Sched : Type} (fetch : Nat → Nat → Except String Sched)
    (st : SchedState Sched) (y : Nat) :
    (∀ (s : Sched) (st2 : SchedState Sched),
       get_schedule fetch st y = (Except.ok s, st2) →
       ∀ fetch2, get_schedule fetch2 st2 y =
           (Except.ok s, { st2 with memo := lruTouch st2.memo y })
         ∧ (get_schedule fetch2 st2 y).2.fetchCount = st2.fetchCount)
  ∧ (∀ (e : String) (st2 : SchedState Sched),
       get_schedule fetch st y = (Except.error e, st2) →
       st2.memo = st.memo ∧ st2.fetchCount = st.fetchCount + 1
         ∧ ∀ fetch2, (get_schedule fetch2 st2 y).2.fetchCount = st2.fetchCount + 1) := by
  constructor
  · intro s st2 h fetch2
    have hm : lruGet st2.memo y = some s := get_schedule_ok_memoizes fetch st y s st2 h
    have hcall := get_schedule_of_hit fetch2 st2 y s hm
    exact ⟨hcall, by rw [hcall]⟩
  · intro e st2 h
    obtain ⟨hmemo, hcount, hmiss, _⟩ := get_schedule_error_state fetch st y e st2 h
    refine ⟨hmemo, hcount, ?_⟩
    intro fetch2
    cases hf : fetch2 st2.fetchCount y with
    | ok s1 => rw [get_schedule_of_fetch_ok fetch2 st2 y s1 hmiss hf]
    | error e1 =>
      cases hd : st2.disk y with
      | some c => rw [get_schedule_of_fallback fetch2 st2 y e1 c hmiss hf hd]
      | none => rw [get_schedule_of_raise fetch2 st2 y e1 hmiss hf hd]

/-- The empty schedule-accessor state over natural-number schedules. -/
def schedInitN : SchedState Nat :=
  { memo := [], disk := fun _ => Option.none, fetchCount := 0 }

/-- An upstream that always fails. -/
def failingFetch : Nat → Nat → Except String Nat := fun _ _ => Except.error "upstream down"

/-- An upstream that always succeeds with schedule 42. -/
def okFetch : Nat → Nat → Except String Nat := fun _ _ => Except.ok 42

/-- Counterexample to C6 as stated: with an upstream that fails for 2024 and
no persisted entry, the first `get_schedule` call performs one fetch and
raises, and a second call for the same year performs a second upstream fetch
— `functools.lru_cache` does not memoize raised exceptions, so the failing
year IS silently re-attempted while nothing occupies its memo slot. -/
theorem schedule_memo_retries_counterexample :
    ((get_schedule failingFetch schedInitN 2024).2).fetchCount = 1
  ∧ ((get_schedule failingFetch ((get_schedule failingFetch schedInitN 2024).2) 2024).2).fetchCount = 2
  ∧ ¬ (2 : Nat) = 1 :=
  ⟨rfl, rfl, by decide⟩

/-- Witness for C6's amended claim: after a successful first call, a second
call with a now-failing upstream still returns the memoized schedule and
performs no fetch. -/
theorem schedule_memo_outcome_witness :
    get_schedule failingFetch ((get_schedule okFetch schedInitN 2024).2) 2024 =
      (Except.ok 42,
       { (get_schedule okFetch schedInitN 2024).2 with
           memo := lruTouch ((get_schedule okFetch schedInitN 2024).2).memo 2024 })
  ∧ (get_schedule failingFetch ((get_schedule okFetch schedInitN 2024).2) 2024).2.fetchCount =
      ((get_schedule okFetch schedInitN 2024).2).fetchCount :=
  (schedule_memo_outcome okFetch schedInitN 2024).1 42
    ((get_schedule okFetch schedInitN 2024).2) rfl failingFetch

theorem mapResultRow_fields (race_or_sprint non_race_timed : Bool) (row : String → Raw)
    (d : DriverResult) (h : mapResultRow race_or_sprint non_race_timed row = Except.ok d) :
    pyIntIfTruthy (row "Position") = Except.ok d.position
  ∧ pyIntIfTruthy (row "Laps") = Except.ok d.laps
  ∧ pyIntIfTruthy (row "GridPosition") = Except.ok d.grid_position
  ∧ pyFloatIfNotNone (row "Points") = Except.ok d.points
  ∧ d.lap_time =
      (if non_race_timed then first_available_interval row ["Time", "Q1", "Q2", "Q3"]
       else Option.none)
  ∧ d.race_time =
      (if race_or_sprint then first_available_interval row ["Time"] else Option.none)
  ∧ d.gap_to_winner =
      (if race_or_sprint && !positionIsOne row then
         first_available_interval row ["GapToLeader", "Time"]
       else if race_or_sprint && positionIsOne row then some "0:00:00"
       else Option.none) := by
  unfold mapResultRow at h
  cases hp : pyIntIfTruthy (row "Position") with
  | error e => simp only [hp] at h; exact Except.noConfusion h
  | ok position =>
    simp only [hp] at h
    cases hl : pyIntIfTruthy (row "Laps") with
    | error e => simp only [hl] at h; exact Except.noConfusion h
    | ok laps =>
      simp only [hl] at h
      cases hg : pyIntIfTruthy (row "GridPosition") with
      | error e => simp only [hg] at h; exact Except.noConfusion h
      | ok grid_position =>
        simp only [hg] at h
        cases hq : pyFloatIfNotNone (row "Points") with
        | error e => simp only [hq] at h; exact Except.noConfusion h
        | ok points =>
          simp only [hq] at h
          injection h with h
          subst h
          exact ⟨rfl, rfl, rfl, rfl, rfl, rfl, rfl⟩

/-- A qualifying-session result row carrying both a `Time` value and a `Q3`
value. -/
def c5cexRow : String → Raw := fun f =>
  if f = "Position" then Raw.int 1
  else if f = "FullName" then Raw.str "Max Verstappen"
  else if f = "TeamName" then Raw.str "Red Bull Racing"
  else if f = "Status" then Raw.str "Finished"
  else if f = "Time" then Raw.str "1:31.000"
  else if f = "Q3" then Raw.str "1:09.000"
  else Raw.none

/-- A loaded qualifying session holding the single row above. -/
def c5cexSession : SessionData := { name := some "Qualifying", results := [c5cexRow] }

/-- The output row the code produces for `c5cexRow`. -/
def c5cexResult : DriverResult :=
  { position := some 1
    driver := Raw.str "Max Verstappen"
    driver_number := Option.none
    driver_code := Raw.none
    team := Raw.str "Red Bull Racing"
    team_color := Option.none
    laps := Option.none
    status := Raw.str "Finished"
    grid_position := Option.none
    points := Option.none
    lap_time := some "1:31.000"
    race_time := Option.none
    gap_to_winner := Option.none }

/-- Counterexample to C5 as stated: on a qualifying row carrying both `Time`
and `Q3`, the code sources `lap_time` from `Time` — the field priority order
is `[Time, Q1, Q2, Q3]` (source line 242), not Q3-first as the claim says. -/
theorem lap_time_priority_counterexample :
    loadSessionResultRows c5cexSession = Except.ok [c5cexResult]
  ∧ c5cexResult.lap_time = some "1:31.000"
  ∧ normalize_interval (c5cexRow "Q3") = some "1:09.000"
  ∧ ¬ (some "1:31.000" = some ("1:09.000" : String)) :=
  ⟨rfl, rfl, rfl, by decide⟩

/-- C5 amended: for a session whose lowercased name makes it a non-race
timed session and not a race/sprint (qualifying in particular), every
returned row's `lap_time` is the first available value in the priority order
`[Time, Q1, Q2, Q3]` over the row's fields, and `race_time` and
`gap_to_winner` are null for every row. -/
theorem qualifying_field_sourcing (session_obj : SessionData) (rs : List DriverResult)
    (ht : is_non_race_timed (pyLower (session_obj.name.getD "")) = true)
    (hr : is_race_or_sprint (pyLower (session_obj.name.getD "")) = false)
    (hok : loadSessionResultRows session_obj = Except.ok rs) :
    List.Forall₂
      (fun row d =>
        d.lap_time = first_available_interval row ["Time", "Q1", "Q2", "Q3"]
        ∧ d.race_time = Option.none ∧ d.gap_to_winner = Option.none)
      session_obj.results rs := by
  unfold loadSessionResultRows at hok
  rw [ht, hr] at hok
  generalize hrows : session_obj.results = rows
  rw [hrows] at hok
  clear hrows ht hr
  induction rows generalizing rs with
  | nil =>
    unfold mapRows at hok
    injection hok with hok
    subst hok
    exact List.Forall₂.nil
  | cons row rest ih =>
    unfold mapRows at hok
    cases hm : mapResultRow false true row with
    | error e => rw [hm] at hok; exact Except.noConfusion hok
    | ok d =>
      rw [hm] at hok
      cases hrest : mapRows false true rest with
      | error e => simp only [hrest] at hok; exact Except.noConfusion hok
      | ok ds =>
        simp only [hrest] at hok
        injection hok with hok
        subst hok
        obtain ⟨_, _, _, _, hlap, hrace, hgap⟩ := mapResultRow_fields false true row d hm
        refine List.Forall₂.cons ⟨?_, ?_, ?_⟩ (ih ds hrest)
        · simpa using hlap
        · simpa using hrace
        · simpa using hgap

/-- A qualifying-session row whose only timed field is `Q3`. -/
def c5wRow : String → Raw := fun f =>
  if f = "FullName" then Raw.str "Lando Norris"
  else if f = "TeamName" then Raw.str "McLaren"
  else if f = "Status" then Raw.str "Finished"
  else if f = "Q3" then Raw.str "1:10.500"
  else Raw.none

/-- A loaded qualifying session holding the single row above. -/
def c5wSession : SessionData := { name := some "Qualifying", results := [c5wRow] }

/-- The output row the code produces for `c5wRow`. -/
def c5wResult : DriverResult :=
  { position := Option.none
    driver := Raw.str "Lando Norris"
    driver_number := Option.none
    driver_code := Raw.none
    team := Raw.str "McLaren"
    team_color := Option.none
    laps := Option.none
    status := Raw.str "Finished"
    grid_position := Option.none
    points := Option.none
    lap_time := some "1:10.500"
    race_time := Option.none
    gap_to_winner := Option.none }

/-- Witness for C5's amended claim at a concrete qualifying session. -/
theorem qualifying_field_sourcing_witness :
    List.Forall₂
      (fun row d =>
        d.lap_time = first_available_interval row ["Time", "Q1", "Q2", "Q3"]
        ∧ d.race_time = Option.none ∧ d.gap_to_winner = Option.none)
      c5wSession.results [c5wResult] :=
  qualifying_field_sourcing c5wSession [c5wResult] rfl rfl rfl

/-- C9: zero-value asymmetry in result rows. On every successfully mapped
row, a falsy raw value (zero, empty or null) for `Position`, `Laps` or
`GridPosition` yields a null output field — in particular `Position = 0`
yields `position = null` — whereas `Points = 0.0` yields `points = 0.0`;
the integer fields are parsed exactly when the raw value is truthy and
`points` exactly when the raw value is not null. -/
theorem pyIntIfTruthy_of_falsy (v : Raw) (h : v.truthy = false) :
    pyIntIfTruthy v = Except.ok Option.none := by
  unfold pyIntIfTruthy
  rw [h]
  rfl

theorem pyIntIfTruthy_of_truthy (v : Raw) (h : v.truthy = true) :
    pyIntIfTruthy v = (pyInt v).map some := by
  unfold pyIntIfTruthy
  rw [h]
  rfl

theorem pyFloatIfNotNone_of_notNone (v : Raw) (h : ¬ v = Raw.none) :
    pyFloatIfNotNone v = (pyFloat v).map some := by
  unfold pyFloatIfNotNone
  have hb : (v == Raw.none) = false := by
    simp only [beq_eq_false_iff_ne, ne_eq]
    exact h
  rw [hb]
  rfl

theorem zero_value_asymmetry (race_or_sprint non_race_timed : Bool) (row : String → Raw)
    (d : DriverResult) (h : mapResultRow race_or_sprint non_race_timed row = Except.ok d) :
    ((row "Position").truthy = false → d.position = Option.none)
  ∧ ((row "Laps").truthy = false → d.laps = Option.none)
  ∧ ((row "GridPosition").truthy = false → d.grid_position = Option.none)
  ∧ (row "Position" = Raw.int 0 → d.position = Option.none)
  ∧ (row "Points" = Raw.float 0 → d.points = some (Raw.float 0))
  ∧ ((row "Position").truthy = true →
       ∃ n, pyInt (row "Position") = Except.ok n ∧ d.position = some n)
  ∧ (¬ row "Points" = Raw.none →
       ∃ v, pyFloat (row "Points") = Except.ok v ∧ d.points = some v) := by
  obtain ⟨hp, hl, hg, hq, -, -, -⟩ :=
    mapResultRow_fields race_or_sprint non_race_timed row d h
  have hposNull : (row "Position").truthy = false → d.position = Option.none := by
    intro htr
    rw [pyIntIfTruthy_of_falsy _ htr] at hp
    injection hp with hp
    exact hp.symm
  refine ⟨hposNull, ?_, ?_, ?_, ?_, ?_, ?_⟩
  · intro htr
    rw [pyIntIfTruthy_of_falsy _ htr] at hl
    injection hl with hl
    exact hl.symm
  · intro htr
    rw [pyIntIfTruthy_of_falsy _ htr] at hg
    injection hg with hg
    exact hg.symm
  · intro hzero
    exact hposNull (by rw [hzero]; rfl)
  · intro hzero
    rw [hzero, show pyFloatIfNotNone (Raw.float 0) = Except.ok (some (Raw.float 0)) from rfl]
      at hq
    injection hq with hq
    exact hq.symm
  · intro htr
    rw [pyIntIfTruthy_of_truthy _ htr] at hp
    cases hpi : pyInt (row "Position") with
    | error e =>
      rw [hpi] at hp
      exact Except.noConfusion hp
    | ok n =>
      rw [hpi] at hp
      injection hp with hp
      exact ⟨n, rfl, hp.symm⟩
  · intro hnn
    rw [pyFloatIfNotNone_of_notNone _ hnn] at hq
    cases hpf : pyFloat (row "Points") with
    | error e =>
      rw [hpf] at hq
      exact Except.noConfusion hq
    | ok v =>
      rw [hpf] at hq
      injection hq with hq
      exact ⟨v, rfl, hq.symm⟩

/-- A result row with zero/empty/null integer fields and zero points. -/
def c9row : String → Raw := fun f =>
  if f = "Position" then Raw.int 0
  else if f = "GridPosition" then Raw.str ""
  else if f = "Points" then Raw.float 0
  else Raw.none

/-- The output row the code produces for `c9row`. -/
def c9result : DriverResult :=
  { position := Option.none
    driver := Raw.none
    driver_number := Option.none
    driver_code := Raw.none
    team := Raw.none
    team_color := Option.none
    laps := Option.none
    status := Raw.none
    grid_position := Option.none
    points := some (Raw.float 0)
    lap_time := Option.none
    race_time := Option.none
    gap_to_winner := Option.none }

/-- Witness for C9: a concrete row with `Position = 0` and `Points = 0.0`
maps to `position = null` and `points = 0.0`. -/
theorem zero_value_asymmetry_witness :
    c9result.position = Option.none ∧ c9result.points = some (Raw.float 0) := by
  have h := zero_value_asymmetry false false c9row c9result rfl
  exact ⟨h.2.2.2.1 rfl, h.2.2.2.2.1 rfl⟩

/-- A result row whose `Position` field is the floating NaN (as pandas emits
for a missing value): non-null and truthy. -/
def c10row : String → Raw := fun f => if f = "Position" then Raw.nan else Raw.none

/-- A loaded race session holding the single NaN-position row above. -/
def c10session : SessionData := { name := some "Race", results := [c10row] }

/-- C10: the per-row integer parse is not total. A row whose `Position` is
the floating NaN is non-null and truthy, so the `int(...)` conversion runs
and raises; `_load_session_results` therefore raises for the entire request,
and the caller's tiered-cache path absorbs the error — serving the stale
payload when one exists and a 502 carrying the exception's message
otherwise, never a payload computed from that session. -/
theorem nan_position_raises :
    Raw.nan.truthy = true
  ∧ ¬ Raw.nan = Raw.none
  ∧ pyInt Raw.nan = Except.error (PyErr.valueError "cannot convert float NaN to integer")
  ∧ loadSessionResultRows c10session =
      Except.error (PyErr.valueError "cannot convert float NaN to integer")
  ∧ session_results 2024 1 "R"
      (Except.error (PyErr.valueError "cannot convert float NaN to integer")) emptyStore =
      (Except.error
        { status := 502, error := "Failed to fetch session results",
          details := "cannot convert float NaN to integer" },
       emptyStore, 1)
  ∧ session_results 2024 1 "R"
      (Except.error (PyErr.valueError "cannot convert float NaN to integer")) staleOnlyStore =
      (Except.ok (Payload.sr []), staleOnlyStore, 1) :=
  ⟨rfl, by decide, rfl, rfl, rfl, rfl⟩

end F1
